import Mathlib

/-!
# Verification of the Hydia formations backend (formation.service / formation.controller)

Shallow embedding of the quiz scoring, attempt numbering, formation update and
fetch logic of `FormationService` and `FormationController`.

Conventions of the embedding:
* JavaScript numbers are modelled exactly: integer-valued fields as `Nat`,
  the computed quiz score as a rational (`ℚ`).
* JavaScript `x || d` on numeric fields is modelled explicitly: both `undefined`
  and `0` are falsy, so `0` falls through to the default `d`.
* The persistence service is modelled as in-memory lists of rows; a fallible
  fetch is an `Except` value; a service function that throws returns `Except.error`
  carrying the thrown message.
-/

namespace Hydia

/-- question_type ∈ multiple_choice, true_false, text. -/
inductive QuestionType where
  | multiple_choice
  | true_false
  | text
deriving DecidableEq, Repr, Inhabited

/-- formation type ∈ video, ppt, pdf, article. -/
inductive FormationType where
  | video
  | ppt
  | pdf
  | article
deriving DecidableEq, Repr

/-- formation status ∈ draft, active, inactive. -/
inductive FormationStatus where
  | draft
  | active
  | inactive
deriving DecidableEq, Repr

/-- A row of `quiz_answers`. -/
structure QuizAnswer where
  id : String
  answer_text : String
  is_correct : Bool
  order_index : Nat
deriving DecidableEq, Repr

/-- A row of `quiz_questions`, with its nested answers as returned by `getQuizById`. -/
structure QuizQuestion where
  id : String
  question_text : String
  question_type : QuestionType
  points : Nat
  order_index : Nat
  quiz_answers : List QuizAnswer
deriving DecidableEq, Repr

/-- A row of `quizzes`, with its nested question/answer graph as returned by `getQuizById`. -/
structure Quiz where
  id : String
  formation_id : String
  title : String
  passing_score : Nat
  max_attempts : Nat
  quiz_questions : List QuizQuestion
deriving DecidableEq, Repr

/-- One element of the submitted `answers` array: questionId plus optional
answerId (multiple choice) or textAnswer (open questions). -/
structure SubmittedAnswer where
  questionId : String
  answerId : Option String
  textAnswer : Option String
deriving DecidableEq, Repr

/-- A row of `user_quiz_results` as inserted by `submitQuizResult`. -/
structure UserQuizResult where
  user_id : String
  quiz_id : String
  score : ℚ
  total_questions : Nat
  correct_answers : Nat
  time_taken_minutes : Option Nat
  passed : Bool
  attempt_number : Nat
  answers_data : List SubmittedAnswer
deriving DecidableEq, Repr

/-- The slice of the persistence state the quiz-submission path touches. -/
structure DB where
  quizzes : List Quiz
  results : List UserQuizResult
deriving DecidableEq, Repr

-- ==================== Scoring (submitQuizResult, lines 814-829) ====================

/-- `answers.find(a => a.questionId === question.id)`. -/
def findUserAnswer (answers : List SubmittedAnswer) (questionId : String) :
    Option SubmittedAnswer :=
  answers.find? (fun a => a.questionId == questionId)

/-- `question.quiz_answers.find(a => a.is_correct)`. -/
def findCorrectAnswer (question : QuizQuestion) : Option QuizAnswer :=
  question.quiz_answers.find? (fun a => a.is_correct)

/-- The body of the `forEach` over `quiz.quiz_questions`: the question contributes
to `correctAnswers` iff a submitted answer is found for it and that answer's
`answerId` equals the id of the first answer flagged `is_correct`. -/
def questionIsCorrect (answers : List SubmittedAnswer) (question : QuizQuestion) : Bool :=
  match findUserAnswer answers question.id with
  | none => false
  | some userAnswer =>
    match findCorrectAnswer question with
    | none => false
    | some correctAnswer => userAnswer.answerId == some correctAnswer.id

/-- The `correctAnswers` accumulator of `submitQuizResult`. -/
def correctAnswersCount (quiz : Quiz) (answers : List SubmittedAnswer) : Nat :=
  quiz.quiz_questions.foldl
    (fun acc question => if questionIsCorrect answers question then acc + 1 else acc) 0

/-- `quiz.quiz_questions?.length || 0`. -/
def totalQuestions (quiz : Quiz) : Nat :=
  quiz.quiz_questions.length

/-- `totalQuestions > 0 ? (correctAnswers / totalQuestions) * 100 : 0`. -/
def computeScore (quiz : Quiz) (answers : List SubmittedAnswer) : ℚ :=
  if 0 < totalQuestions quiz then
    ((correctAnswersCount quiz answers : ℚ) / (totalQuestions quiz : ℚ)) * 100
  else 0

/-- `quiz.passing_score || 70`: JavaScript treats `0` (and a missing value) as
falsy, so a passing_score of 0 falls back to the default 70. -/
def effectivePassingScore (quiz : Quiz) : Nat :=
  if quiz.passing_score = 0 then 70 else quiz.passing_score

/-- `passed = score >= (quiz.passing_score || 70)`. -/
def computePassed (quiz : Quiz) (answers : List SubmittedAnswer) : Bool :=
  decide ((effectivePassingScore quiz : ℚ) ≤ computeScore quiz answers)

-- ==================== Attempt numbering (lines 831-842) ====================

/-- `getQuizById`: look the quiz up by id. -/
def getQuizById (db : DB) (quizId : String) : Option Quiz :=
  db.quizzes.find? (fun q => q.id == quizId)

/-- The `attempt_number` column of the caller's prior rows for this quiz:
`select attempt_number where user_id = userId and quiz_id = quizId`. -/
def priorAttemptNumbers (db : DB) (userId quizId : String) : List Nat :=
  (db.results.filter (fun r => r.user_id == userId && r.quiz_id == quizId)).map
    (fun r => r.attempt_number)

/-- `order by attempt_number descending, limit 1`: the single largest element,
or none when the caller has no prior row. -/
def latestAttempt (attempts : List Nat) : Option Nat :=
  match attempts with
  | [] => none
  | a :: rest => some (rest.foldl max a)

/-- `previousAttempts.length > 0 ? previousAttempts[0].attempt_number + 1 : 1`. -/
def nextAttemptNumber (db : DB) (userId quizId : String) : Nat :=
  match latestAttempt (priorAttemptNumbers db userId quizId) with
  | some m => m + 1
  | none => 1

-- ==================== submitQuizResult (lines 802-867) ====================

/-- `FormationService.submitQuizResult`: resolve the quiz (throwing
`Quiz non trouvé` when absent), score the submission, compute the attempt
number, and insert one immutable `user_quiz_results` row. -/
def submitQuizResult (db : DB) (userId quizId : String)
    (answers : List SubmittedAnswer) (timeSpent : Option Nat) :
    Except String (UserQuizResult × DB) :=
  match getQuizById db quizId with
  | none => .error "Quiz non trouvé"
  | some quiz =>
    let result : UserQuizResult :=
      { user_id := userId
        quiz_id := quizId
        score := computeScore quiz answers
        total_questions := totalQuestions quiz
        correct_answers := correctAnswersCount quiz answers
        time_taken_minutes := timeSpent
        passed := computePassed quiz answers
        attempt_number := nextAttemptNumber db userId quizId
        answers_data := answers }
    .ok (result, { db with results := db.results ++ [result] })

/-- HTTP statuses issued by `FormationController`. -/
inductive HttpStatus where
  | ok200
  | created201
  | badRequest400
  | notFound404
  | serverError500
deriving DecidableEq, Repr

/-- `FormationController.submitQuiz`: a thrown domain error is caught and
surfaced as HTTP 500 (there is no 404 branch); success is HTTP 200. -/
def submitQuizController (db : DB) (userId quizId : String)
    (answers : List SubmittedAnswer) (timeSpent : Option Nat) : HttpStatus × DB :=
  match submitQuizResult db userId quizId answers timeSpent with
  | .error _ => (.serverError500, db)
  | .ok (_, db2) => (.ok200, db2)

-- ==================== Formations (getFormationById / updateFormation) ====================

/-- A row of `formations`. Timestamps are modelled as `Nat` instants. -/
structure Formation where
  id : String
  organization_id : String
  name : String
  type : FormationType
  description : Option String
  duration_minutes : Nat
  status : FormationStatus
  file_url : Option String
  file_name : Option String
  file_size : Option Nat
  created_by : String
  created_at : Nat
  updated_at : Nat
deriving DecidableEq, Repr

/-- A `Partial<Formation>` update payload: a field is `none` when the key is
absent from the payload (the request schema never sends explicit nulls). -/
structure FormationUpdate where
  name : Option String := none
  type : Option FormationType := none
  description : Option String := none
  duration_minutes : Option Nat := none
  status : Option FormationStatus := none
  file_url : Option String := none
  file_name : Option String := none
  file_size : Option Nat := none
deriving DecidableEq, Repr

/-- `FormationService.updateFormation` as seen by the stored row:
`update(\x7b ...updateData, updated_at: new Date().toISOString() \x7d)` sets
exactly the columns present in the payload plus `updated_at := now`, and the
SQL UPDATE leaves every other column of the row unchanged. -/
def applyFormationUpdate (f : Formation) (u : FormationUpdate) (now : Nat) : Formation :=
  { id := f.id
    organization_id := f.organization_id
    name := u.name.getD f.name
    type := u.type.getD f.type
    description := u.description.elim f.description some
    duration_minutes := u.duration_minutes.getD f.duration_minutes
    status := u.status.getD f.status
    file_url := u.file_url.elim f.file_url some
    file_name := u.file_name.elim f.file_name some
    file_size := u.file_size.elim f.file_size some
    created_by := f.created_by
    created_at := f.created_at
    updated_at := now }

/-- `FormationService.getFormationById`: the single-row fetch either errors or
yields the row. On error the service logs and returns null; it never throws. -/
def getFormationByIdService (fetch : Except String Formation) : Option Formation :=
  match fetch with
  | .error _ => none
  | .ok f => some f

/-- `FormationController.getFormationById`: a null service result is HTTP 404,
a row is HTTP 200; HTTP 500 would require the service to throw. -/
def getFormationByIdController (fetch : Except String Formation) : HttpStatus :=
  match getFormationByIdService fetch with
  | none => .notFound404
  | some _ => .ok200

-- ==================== Quiz authoring (createQuiz flow) ====================

/-- One answer of the validated create-quiz payload. -/
structure AnswerInput where
  answer_text : String
  is_correct : Bool
  order_index : Option Nat := none
deriving DecidableEq, Repr

/-- One question of the validated create-quiz payload. -/
structure QuestionInput where
  question_text : String
  question_type : QuestionType := .multiple_choice
  points : Nat := 1
  order_index : Option Nat := none
  answers : List AnswerInput := []
deriving DecidableEq, Repr

/-- The JavaScript expression `x.order_index || index`: both a missing value
and an explicit `0` are falsy, so both fall back to the map index. -/
def orIndexDefault (v : Option Nat) (index : Nat) : Nat :=
  match v with
  | none => index
  | some n => if n = 0 then index else n

/-- A `quiz_questions` row as built by `addQuizQuestions` (the
database-assigned id is supplied separately by the caller model). -/
structure StoredQuestion where
  quiz_id : String
  question_text : String
  question_type : QuestionType
  points : Nat
  order_index : Nat
deriving DecidableEq, Repr, Inhabited

/-- A `quiz_answers` row as built by `addQuizAnswers`. -/
structure StoredAnswer where
  question_id : String
  answer_text : String
  is_correct : Bool
  order_index : Nat
deriving DecidableEq, Repr

/-- `FormationService.addQuizQuestions`: one insert payload per question, with
`points: q.points || 1` and `order_index: q.order_index || index` where
`index` is the question's position in this call's list. -/
def addQuizQuestions (quizId : String) (questions : List QuestionInput) :
    List StoredQuestion :=
  questions.mapIdx (fun index q =>
    { quiz_id := quizId
      question_text := q.question_text
      question_type := q.question_type
      points := if q.points = 0 then 1 else q.points
      order_index := orIndexDefault q.order_index index })

/-- `FormationService.addQuizAnswers`: one insert payload per answer, with
`order_index: a.order_index || index` over this call's list. -/
def addQuizAnswers (questionId : String) (answers : List AnswerInput) :
    List StoredAnswer :=
  answers.mapIdx (fun index a =>
    { question_id := questionId
      answer_text := a.answer_text
      is_correct := a.is_correct
      order_index := orIndexDefault a.order_index index })

/-- `FormationController.createQuiz`, question loop: each question is inserted
through its own singleton `addQuizQuestions` call (so the bulk index restarts
at 0 every iteration), then its answers are bulk-inserted under the
database-assigned question id, modelled by `genId` applied to the loop
position. -/
def createQuizFlow (quizId : String) (genId : Nat → String)
    (questions : List QuestionInput) : List (StoredQuestion × List StoredAnswer) :=
  questions.mapIdx (fun i q =>
    let inserted := addQuizQuestions quizId [q]
    (inserted.headD default, addQuizAnswers (genId i) q.answers))

-- ==================== Spec-side definitions ====================

/-- Spec-side count, from the spec's words: the number of questions whose
submitted answerId equals the id of an answer of that question flagged
`is_correct`. To be compared with the implementation's `correctAnswersCount`. -/
def specCorrectCount (quiz : Quiz) (answers : List SubmittedAnswer) : Nat :=
  quiz.quiz_questions.countP (fun question =>
    match findUserAnswer answers question.id with
    | some ua => question.quiz_answers.any (fun a => a.is_correct && ua.answerId == some a.id)
    | none => false)

/-- Spec-side description of an all-correct submission: every question of the
quiz maps to a submitted answer whose answerId is that question's designated
correct answer. -/
def allCorrectSubmission (quiz : Quiz) (answers : List SubmittedAnswer) : Prop :=
  ∀ q ∈ quiz.quiz_questions,
    ∃ ca, findCorrectAnswer q = some ca ∧
      ∃ ua, findUserAnswer answers q.id = some ua ∧ ua.answerId = some ca.id

-- ==================== Helper lemmas ====================

theorem foldl_count_eq_countP {α : Type} (p : α → Bool) (l : List α) (n : Nat) :
    l.foldl (fun acc x => if p x then acc + 1 else acc) n = n + l.countP p := by
  induction l generalizing n with
  | nil => simp
  | cons x xs ih =>
    simp only [List.foldl_cons, List.countP_cons, ih]
    cases h : p x
    · simp [h]
    · simp only [h, if_true]
      omega

theorem correctAnswersCount_eq_countP (quiz : Quiz) (answers : List SubmittedAnswer) :
    correctAnswersCount quiz answers =
      quiz.quiz_questions.countP (questionIsCorrect answers) := by
  simpa [correctAnswersCount] using
    foldl_count_eq_countP (questionIsCorrect answers) quiz.quiz_questions 0

/-- When at most one answer of the list is flagged correct, matching against
the first flagged answer agrees with matching against any flagged answer. -/
theorem find_flagged_match_eq_any (ua : SubmittedAnswer) (l : List QuizAnswer)
    (h : l.countP (fun a => a.is_correct) ≤ 1) :
    (match l.find? (fun a => a.is_correct) with
      | none => false
      | some ca => ua.answerId == some ca.id)
    = l.any (fun a => a.is_correct && ua.answerId == some a.id) := by
  induction l with
  | nil => simp
  | cons a rest ih =>
    rw [List.countP_cons] at h
    cases ha : a.is_correct
    · have h' : rest.countP (fun a => a.is_correct) ≤ 1 := by
        simp only [ha] at h
        simpa using h
      rw [List.find?_cons_of_neg _ (by simp [ha]), List.any_cons]
      simp only [ha, Bool.false_and, Bool.false_or]
      exact ih h'
    · have hrest : rest.countP (fun a => a.is_correct) = 0 := by
        simp only [ha, if_true] at h
        omega
      have hnone : ∀ b ∈ rest, b.is_correct = false := by
        intro b hb
        simpa using (List.countP_eq_zero.mp hrest) b hb
      have hany : rest.any (fun b => b.is_correct && ua.answerId == some b.id) = false := by
        rw [List.any_eq_false]
        intro b hb
        simp [hnone b hb]
      rw [List.find?_cons_of_pos _ (by simp [ha]), List.any_cons]
      simp [ha, hany]

/-- Under the at-most-one-flag key discipline, the implementation's per-question
check agrees with the spec-side any-flagged check. -/
theorem questionIsCorrect_eq_spec (answers : List SubmittedAnswer) (q : QuizQuestion)
    (h : q.quiz_answers.countP (fun a => a.is_correct) ≤ 1) :
    questionIsCorrect answers q =
      (match findUserAnswer answers q.id with
        | some ua => q.quiz_answers.any (fun a => a.is_correct && ua.answerId == some a.id)
        | none => false) := by
  cases h' : findUserAnswer answers q.id with
  | none => simp [questionIsCorrect, h']
  | some ua =>
    simp only [questionIsCorrect, findCorrectAnswer, h']
    exact find_flagged_match_eq_any ua q.quiz_answers h

theorem correctAnswersCount_eq_specCorrectCount (quiz : Quiz)
    (answers : List SubmittedAnswer)
    (hkey : ∀ q ∈ quiz.quiz_questions, q.quiz_answers.countP (fun a => a.is_correct) ≤ 1) :
    correctAnswersCount quiz answers = specCorrectCount quiz answers := by
  rw [correctAnswersCount_eq_countP, specCorrectCount]
  exact List.countP_congr (fun q hq => by rw [questionIsCorrect_eq_spec answers q (hkey q hq)])

-- ==================== Concrete fixtures for witnesses and counterexamples ====================

/-- A correct answer row. -/
def wAnswerA : QuizAnswer :=
  { id := "a1", answer_text := "A", is_correct := true, order_index := 0 }

/-- An incorrect answer row. -/
def wAnswerB : QuizAnswer :=
  { id := "a2", answer_text := "B", is_correct := false, order_index := 1 }

/-- A one-question fixture question. -/
def wQuestion : QuizQuestion :=
  { id := "q1", question_text := "Q", question_type := .multiple_choice,
    points := 1, order_index := 0, quiz_answers := [wAnswerA, wAnswerB] }

/-- A one-question fixture quiz with passing_score 70. -/
def wQuiz : Quiz :=
  { id := "z1", formation_id := "f1", title := "W", passing_score := 70,
    max_attempts := 3, quiz_questions := [wQuestion] }

/-- A database holding the fixture quiz and no prior results. -/
def wDB : DB := { quizzes := [wQuiz], results := [] }

/-- A submission answering the fixture question with its correct answer. -/
def wGoodSub : List SubmittedAnswer :=
  [{ questionId := "q1", answerId := some "a1", textAnswer := none }]

-- ==================== Claim theorems ====================

/-- C1: for every quiz submission (on an existing quiz whose questions each
flag at most one answer correct, so that "the answer flagged is_correct" is
well defined), the recorded score equals correct_answers / total_questions
× 100, where correct_answers counts the questions whose submitted answerId
equals the id of that question's answer flagged is_correct, and the score is
0 when total_questions = 0. -/
theorem submitQuizResult_score_eq_spec
    (db : DB) (userId quizId : String) (answers : List SubmittedAnswer)
    (timeSpent : Option Nat) (quiz : Quiz)
    (hq : getQuizById db quizId = some quiz)
    (hkey : ∀ q ∈ quiz.quiz_questions, q.quiz_answers.countP (fun a => a.is_correct) ≤ 1) :
    ∃ result db2,
      submitQuizResult db userId quizId answers timeSpent = .ok (result, db2)
      ∧ result.total_questions = totalQuestions quiz
      ∧ result.correct_answers = specCorrectCount quiz answers
      ∧ result.score =
          (if totalQuestions quiz = 0 then 0
            else (specCorrectCount quiz answers : ℚ) / (totalQuestions quiz : ℚ) * 100) := by
  have hcount := correctAnswersCount_eq_specCorrectCount quiz answers hkey
  unfold submitQuizResult
  rw [hq]
  refine ⟨_, _, rfl, rfl, hcount, ?_⟩
  show computeScore quiz answers = _
  unfold computeScore
  by_cases h0 : totalQuestions quiz = 0
  · simp [h0]
  · have hpos : 0 < totalQuestions quiz := Nat.pos_of_ne_zero h0
    simp [h0, hpos, hcount]

/-- Witness for C1 on the concrete fixture. -/
theorem submitQuizResult_score_eq_spec_witness :
    ∃ result db2,
      submitQuizResult wDB "u1" "z1" wGoodSub none = .ok (result, db2)
      ∧ result.total_questions = totalQuestions wQuiz
      ∧ result.correct_answers = specCorrectCount wQuiz wGoodSub
      ∧ result.score =
          (if totalQuestions wQuiz = 0 then 0
            else (specCorrectCount wQuiz wGoodSub : ℚ) / (totalQuestions wQuiz : ℚ) * 100) :=
  submitQuizResult_score_eq_spec wDB "u1" "z1" wGoodSub none wQuiz (by decide) (by decide)

/-- A quiz with passing_score 0 and no questions. -/
def zeroPassQuiz : Quiz :=
  { id := "z0", formation_id := "f0", title := "Z", passing_score := 0,
    max_attempts := 3, quiz_questions := [] }

/-- The `passing_score || 70` fallback is at least 1, in fact at least 70 when
passing_score is 0. -/
theorem one_le_effectivePassingScore (quiz : Quiz) : 1 ≤ effectivePassingScore quiz := by
  unfold effectivePassingScore
  split
  · omega
  · omega

/-- C2 counterexample: on a quiz with passing_score = 0 and no questions, the
score 0 satisfies score ≥ passing_score, yet the computed passed flag is
false, because the code evaluates `passing_score || 70` and 0 is falsy. -/
theorem passed_at_zero_passing_score_counterexample :
    computeScore zeroPassQuiz [] = 0
    ∧ (zeroPassQuiz.passing_score : ℚ) ≤ computeScore zeroPassQuiz []
    ∧ computePassed zeroPassQuiz [] = false := by
  refine ⟨by decide, by decide, by decide⟩

/-- C2 amended: the recorded passed flag is true iff the score is at least the
effective threshold, which is passing_score when nonzero and 70 otherwise
(`passing_score || 70` treats 0 as missing); consequently a submission on a
quiz with total_questions = 0 always records passed = false, even when
passing_score = 0. -/
theorem submitQuizResult_passed_iff_threshold
    (db : DB) (userId quizId : String) (answers : List SubmittedAnswer)
    (timeSpent : Option Nat) (quiz : Quiz)
    (hq : getQuizById db quizId = some quiz) :
    ∃ result db2,
      submitQuizResult db userId quizId answers timeSpent = .ok (result, db2)
      ∧ (result.passed = true ↔ (effectivePassingScore quiz : ℚ) ≤ result.score)
      ∧ (totalQuestions quiz = 0 → result.passed = false) := by
  unfold submitQuizResult
  rw [hq]
  refine ⟨_, _, rfl, ?_, ?_⟩
  · show computePassed quiz answers = true ↔ _
    unfold computePassed
    exact decide_eq_true_iff
  · intro h0
    show computePassed quiz answers = false
    have hscore : computeScore quiz answers = 0 := by
      unfold computeScore
      rw [if_neg (by omega)]
    have h1 : (1 : ℚ) ≤ (effectivePassingScore quiz : ℚ) := by
      exact_mod_cast one_le_effectivePassingScore quiz
    have hnot : ¬ ((effectivePassingScore quiz : ℚ) ≤ computeScore quiz answers) := by
      rw [hscore]
      intro hle
      linarith
    simp [computePassed, hnot]

/-- Witness for the amended C2 on the concrete fixture. -/
theorem submitQuizResult_passed_iff_threshold_witness :
    ∃ result db2,
      submitQuizResult wDB "u1" "z1" wGoodSub none = .ok (result, db2)
      ∧ (result.passed = true ↔ (effectivePassingScore wQuiz : ℚ) ≤ result.score)
      ∧ (totalQuestions wQuiz = 0 → result.passed = false) :=
  submitQuizResult_passed_iff_threshold wDB "u1" "z1" wGoodSub none wQuiz (by decide)

/-- A quiz with passing_score 70 and no questions. -/
def emptyQuiz : Quiz :=
  { id := "e1", formation_id := "f0", title := "E", passing_score := 70,
    max_attempts := 3, quiz_questions := [] }

/-- C3 counterexample: a quiz with no questions vacuously satisfies "every
questionId of the quiz maps to the designated correct answerId", yet the
computed score is 0, not 100, and the passed flag is false. -/
theorem allCorrect_empty_quiz_counterexample :
    allCorrectSubmission emptyQuiz []
    ∧ computeScore emptyQuiz [] = 0
    ∧ computeScore emptyQuiz [] ≠ 100
    ∧ computePassed emptyQuiz [] = false := by
  refine ⟨?_, by decide, by decide, by decide⟩
  intro q hq
  simp [emptyQuiz] at hq

/-- C3 amended: for every quiz with at least one question (and satisfying the
data-model invariant passing_score ≤ 100), a submission in which every
question of the quiz maps to a submitted answer whose answerId is that
question's designated correct answer records score = 100 and passed = true. -/
theorem allCorrect_submission_scores_100
    (db : DB) (userId quizId : String) (answers : List SubmittedAnswer)
    (timeSpent : Option Nat) (quiz : Quiz)
    (hq : getQuizById db quizId = some quiz)
    (hne : quiz.quiz_questions ≠ [])
    (hps : quiz.passing_score ≤ 100)
    (hall : allCorrectSubmission quiz answers) :
    ∃ result db2,
      submitQuizResult db userId quizId answers timeSpent = .ok (result, db2)
      ∧ result.score = 100
      ∧ result.passed = true := by
  have hall' : ∀ q ∈ quiz.quiz_questions, questionIsCorrect answers q = true := by
    intro q hqq
    obtain ⟨ca, hca, ua, hua, hid⟩ := hall q hqq
    unfold questionIsCorrect
    rw [hua, hca]
    simp [hid]
  have hcount : correctAnswersCount quiz answers = totalQuestions quiz := by
    rw [correctAnswersCount_eq_countP, totalQuestions]
    exact List.countP_eq_length.mpr hall'
  have hn : totalQuestions quiz ≠ 0 := by
    simpa [totalQuestions, List.length_eq_zero] using hne
  have hn0 : (totalQuestions quiz : ℚ) ≠ 0 := by
    exact_mod_cast hn
  have hscore : computeScore quiz answers = 100 := by
    unfold computeScore
    rw [if_pos (Nat.pos_of_ne_zero hn), hcount, div_self hn0, one_mul]
  have hpassed : computePassed quiz answers = true := by
    unfold computePassed
    rw [hscore]
    have hle : effectivePassingScore quiz ≤ 100 := by
      unfold effectivePassingScore
      split
      · omega
      · exact hps
    simp only [decide_eq_true_eq]
    exact_mod_cast hle
  unfold submitQuizResult
  rw [hq]
  exact ⟨_, _, rfl, hscore, hpassed⟩

/-- Witness for the amended C3 on the concrete fixture. -/
theorem allCorrect_submission_scores_100_witness :
    ∃ result db2,
      submitQuizResult wDB "u1" "z1" wGoodSub none = .ok (result, db2)
      ∧ result.score = 100
      ∧ result.passed = true :=
  allCorrect_submission_scores_100 wDB "u1" "z1" wGoodSub none wQuiz (by decide)
    (by decide) (by decide)
    (by
      intro q hqq
      simp only [wQuiz, List.mem_singleton] at hqq
      subst hqq
      exact ⟨wAnswerA, by decide, ⟨"q1", some "a1", none⟩, by decide, by decide⟩)

-- ==================== Sequential submissions (C4) ====================

/-- One sequential submission step; on a thrown error the state is unchanged. -/
def submitStep (userId quizId : String) (answers : List SubmittedAnswer) (db : DB) : DB :=
  match submitQuizResult db userId quizId answers none with
  | .error _ => db
  | .ok (_, db2) => db2

/-- The state after n sequential (non-concurrent) submissions. -/
def submitRepeat (userId quizId : String) (answers : List SubmittedAnswer) (db : DB) :
    Nat → DB
  | 0 => db
  | n + 1 => submitStep userId quizId answers (submitRepeat userId quizId answers db n)

/-- The caller's highest prior attempt number for the quiz, 0 when none. -/
def maxPriorAttempt (db : DB) (userId quizId : String) : Nat :=
  (priorAttemptNumbers db userId quizId).foldl max 0

theorem nextAttemptNumber_eq (db : DB) (userId quizId : String) :
    nextAttemptNumber db userId quizId = maxPriorAttempt db userId quizId + 1 := by
  unfold nextAttemptNumber latestAttempt maxPriorAttempt
  cases hl : priorAttemptNumbers db userId quizId with
  | nil => simp
  | cons x xs => simp [List.foldl_cons, Nat.zero_max]

/-- A successful submission returns the inserted row and appends it to
`user_quiz_results`, leaving the quizzes untouched. -/
theorem submitQuizResult_ok_step (db : DB) (userId quizId : String)
    (answers : List SubmittedAnswer) (timeSpent : Option Nat) (quiz : Quiz)
    (hq : getQuizById db quizId = some quiz) :
    ∃ result db2,
      submitQuizResult db userId quizId answers timeSpent = .ok (result, db2)
      ∧ result.user_id = userId
      ∧ result.quiz_id = quizId
      ∧ result.attempt_number = maxPriorAttempt db userId quizId + 1
      ∧ db2.quizzes = db.quizzes
      ∧ db2.results = db.results ++ [result] := by
  unfold submitQuizResult
  rw [hq]
  exact ⟨_, _, rfl, rfl, rfl, nextAttemptNumber_eq db userId quizId, rfl, rfl⟩

theorem maxPriorAttempt_of_results_append (db db2 : DB) (userId quizId : String)
    (r : UserQuizResult) (hres : db2.results = db.results ++ [r])
    (hu : r.user_id = userId) (hz : r.quiz_id = quizId) :
    maxPriorAttempt db2 userId quizId
      = max (maxPriorAttempt db userId quizId) r.attempt_number := by
  unfold maxPriorAttempt priorAttemptNumbers
  rw [hres]
  simp [List.filter_append, hu, hz, List.foldl_append]

/-- Invariant of sequential submission: starting from a state holding the quiz
and no prior attempt of the caller, after n submissions the quiz is still
found and the caller's highest attempt number is n. -/
theorem submitRepeat_invariant (db : DB) (userId quizId : String)
    (answers : List SubmittedAnswer) (quiz : Quiz)
    (hq : getQuizById db quizId = some quiz)
    (h0 : priorAttemptNumbers db userId quizId = []) :
    ∀ n, getQuizById (submitRepeat userId quizId answers db n) quizId = some quiz
      ∧ maxPriorAttempt (submitRepeat userId quizId answers db n) userId quizId = n := by
  intro n
  induction n with
  | zero =>
    refine ⟨hq, ?_⟩
    simp [maxPriorAttempt, submitRepeat, h0]
  | succ n ih =>
    obtain ⟨ihq, ihmax⟩ := ih
    obtain ⟨result, db2, hok, hu, hz, hatt, hqz, hres⟩ :=
      submitQuizResult_ok_step (submitRepeat userId quizId answers db n)
        userId quizId answers none quiz ihq
    have hstep : submitRepeat userId quizId answers db (n + 1) = db2 := by
      unfold submitRepeat submitStep
      rw [hok]
    constructor
    · rw [hstep]
      unfold getQuizById
      rw [hqz]
      exact ihq
    · rw [hstep,
        maxPriorAttempt_of_results_append (submitRepeat userId quizId answers db n)
          db2 userId quizId result hres hu hz,
        ihmax, hatt, ihmax]
      exact Nat.max_eq_right (Nat.le_succ n)

/-- C4: starting from a state in which the caller has never attempted the
quiz, the first submission records attempt_number 1 and the Nth sequential
submission records attempt_number N; in general the recorded attempt_number
is 1 plus the caller's highest prior attempt_number for this quiz (1 when
there is no prior attempt, the highest being 0 then). -/
theorem attempt_number_sequential (db : DB) (userId quizId : String)
    (answers : List SubmittedAnswer) (quiz : Quiz)
    (hq : getQuizById db quizId = some quiz)
    (h0 : priorAttemptNumbers db userId quizId = []) :
    (∀ n, ∃ result db2,
        submitQuizResult (submitRepeat userId quizId answers db n)
            userId quizId answers none = .ok (result, db2)
        ∧ result.attempt_number = n + 1)
    ∧ (∀ db' result db2,
        submitQuizResult db' userId quizId answers none = .ok (result, db2) →
        result.attempt_number = maxPriorAttempt db' userId quizId + 1) := by
  constructor
  · intro n
    obtain ⟨hqn, hmax⟩ := submitRepeat_invariant db userId quizId answers quiz hq h0 n
    obtain ⟨result, db2, hok, _, _, hatt, _, _⟩ :=
      submitQuizResult_ok_step (submitRepeat userId quizId answers db n)
        userId quizId answers none quiz hqn
    refine ⟨result, db2, hok, ?_⟩
    rw [hatt, hmax]
  · intro db' result db2 hok
    unfold submitQuizResult at hok
    cases hg : getQuizById db' quizId with
    | none =>
      rw [hg] at hok
      exact absurd hok (by simp)
    | some qz =>
      rw [hg] at hok
      simp only [Except.ok.injEq, Prod.mk.injEq] at hok
      obtain ⟨h1, _⟩ := hok
      rw [← h1]
      exact nextAttemptNumber_eq db' userId quizId

/-- Witness for C4 on the concrete fixture. -/
theorem attempt_number_sequential_witness :
    (∀ n, ∃ result db2,
        submitQuizResult (submitRepeat "u1" "z1" wGoodSub wDB n)
            "u1" "z1" wGoodSub none = .ok (result, db2)
        ∧ result.attempt_number = n + 1)
    ∧ (∀ db' result db2,
        submitQuizResult db' "u1" "z1" wGoodSub none = .ok (result, db2) →
        result.attempt_number = maxPriorAttempt db' "u1" "z1" + 1) :=
  attempt_number_sequential wDB "u1" "z1" wGoodSub wQuiz (by decide) (by decide)

-- ==================== Scoring ignores question_type and textAnswer (C5) ====================

/-- An answer row flagged correct, attached to a text question. -/
def tAnswer : QuizAnswer :=
  { id := "ta1", answer_text := "expected", is_correct := true, order_index := 0 }

/-- A question of type text that carries a flagged answer (the create-quiz
validation requires at least one answer for every question, text included). -/
def tQuestion : QuizQuestion :=
  { id := "tq1", question_text := "open", question_type := .text,
    points := 1, order_index := 0, quiz_answers := [tAnswer] }

/-- A quiz consisting of one text question. -/
def tQuiz : Quiz :=
  { id := "tz1", formation_id := "f1", title := "T", passing_score := 70,
    max_attempts := 3, quiz_questions := [tQuestion] }

/-- C5 counterexample: a question of type text IS counted toward
correct_answers when the submission carries the answerId of its answer
flagged is_correct — the scoring algorithm never inspects question_type. -/
theorem text_question_counted_counterexample :
    tQuestion.question_type = QuestionType.text
    ∧ correctAnswersCount tQuiz [⟨"tq1", some "ta1", none⟩] = 1 := by
  refine ⟨rfl, by decide⟩

/-- Drop the textAnswer field of a submitted answer. -/
def stripText (a : SubmittedAnswer) : SubmittedAnswer :=
  { a with textAnswer := none }

/-- Drop every textAnswer of a submission. -/
def stripTextAnswers (answers : List SubmittedAnswer) : List SubmittedAnswer :=
  answers.map stripText

/-- Replace every question's type. -/
def setQuestionTypes (quiz : Quiz) (t : QuestionType) : Quiz :=
  { quiz with quiz_questions :=
      quiz.quiz_questions.map (fun q => { q with question_type := t }) }

theorem findUserAnswer_stripText (answers : List SubmittedAnswer) (qid : String) :
    findUserAnswer (stripTextAnswers answers) qid
      = (findUserAnswer answers qid).map stripText := by
  unfold findUserAnswer stripTextAnswers
  induction answers with
  | nil => rfl
  | cons a rest ih =>
    simp only [List.map_cons]
    cases h : a.questionId == qid
    · rw [List.find?_cons_of_neg _ (by simpa [stripText] using h),
        List.find?_cons_of_neg _ (by simpa using h)]
      exact ih
    · rw [List.find?_cons_of_pos _ (by simpa [stripText] using h),
        List.find?_cons_of_pos _ (by simpa using h)]
      rfl

theorem questionIsCorrect_stripText_setType (answers : List SubmittedAnswer)
    (q : QuizQuestion) (t : QuestionType) :
    questionIsCorrect (stripTextAnswers answers) { q with question_type := t }
      = questionIsCorrect answers q := by
  unfold questionIsCorrect
  rw [show ({ q with question_type := t } : QuizQuestion).id = q.id from rfl,
    show findCorrectAnswer { q with question_type := t } = findCorrectAnswer q from rfl,
    findUserAnswer_stripText]
  cases findUserAnswer answers q.id with
  | none => rfl
  | some ua =>
    cases findCorrectAnswer q with
    | none => rfl
    | some ca => rfl

theorem correctAnswersCount_stripText_setType (quiz : Quiz) (t : QuestionType)
    (answers : List SubmittedAnswer) :
    correctAnswersCount (setQuestionTypes quiz t) (stripTextAnswers answers)
      = correctAnswersCount quiz answers := by
  rw [correctAnswersCount_eq_countP, correctAnswersCount_eq_countP]
  show ((quiz.quiz_questions.map (fun q => { q with question_type := t })).countP
      (questionIsCorrect (stripTextAnswers answers))) = _
  rw [List.countP_map]
  refine List.countP_congr ?_
  intro q hq
  simp only [Function.comp_apply]
  rw [questionIsCorrect_stripText_setType]

/-- C5 amended: the scoring algorithm never inspects question_type or
textAnswer: replacing every question's type (text included) and erasing every
submitted textAnswer changes neither correct_answers, nor the score, nor the
passed flag — a text question is scored by the same answerId-matching rule as
any other question, and a submission carrying only a textAnswer counts as
incorrect. -/
theorem scoring_ignores_question_type_and_textAnswer (quiz : Quiz)
    (t : QuestionType) (answers : List SubmittedAnswer) :
    correctAnswersCount (setQuestionTypes quiz t) (stripTextAnswers answers)
        = correctAnswersCount quiz answers
    ∧ computeScore (setQuestionTypes quiz t) (stripTextAnswers answers)
        = computeScore quiz answers
    ∧ computePassed (setQuestionTypes quiz t) (stripTextAnswers answers)
        = computePassed quiz answers := by
  have hc := correctAnswersCount_stripText_setType quiz t answers
  have htot : totalQuestions (setQuestionTypes quiz t) = totalQuestions quiz := by
    simp [totalQuestions, setQuestionTypes]
  have hs : computeScore (setQuestionTypes quiz t) (stripTextAnswers answers)
      = computeScore quiz answers := by
    unfold computeScore
    rw [hc, htot]
  have hp : computePassed (setQuestionTypes quiz t) (stripTextAnswers answers)
      = computePassed quiz answers := by
    unfold computePassed
    rw [hs, show effectivePassingScore (setQuestionTypes quiz t)
      = effectivePassingScore quiz from rfl]
  exact ⟨hc, hs, hp⟩

-- ==================== Scoring ignores points (C9) ====================

/-- Two questions identical except possibly in their points value. -/
def eqExceptPoints (q1 q2 : QuizQuestion) : Prop :=
  q1.id = q2.id ∧ q1.question_text = q2.question_text
  ∧ q1.question_type = q2.question_type ∧ q1.order_index = q2.order_index
  ∧ q1.quiz_answers = q2.quiz_answers

theorem questionIsCorrect_congr_points (answers : List SubmittedAnswer)
    (q1 q2 : QuizQuestion) (h : eqExceptPoints q1 q2) :
    questionIsCorrect answers q1 = questionIsCorrect answers q2 := by
  obtain ⟨hid, -, -, -, hans⟩ := h
  unfold questionIsCorrect findCorrectAnswer
  rw [hid, hans]

theorem countP_questionIsCorrect_congr (answers : List SubmittedAnswer)
    (l1 l2 : List QuizQuestion) (h : List.Forall₂ eqExceptPoints l1 l2) :
    l1.countP (questionIsCorrect answers) = l2.countP (questionIsCorrect answers) := by
  induction h with
  | nil => rfl
  | cons hab hrest ih =>
    rw [List.countP_cons, List.countP_cons, ih,
      questionIsCorrect_congr_points answers _ _ hab]

/-- C9: the score and passed flag computed by submitQuizResult are unchanged
under any modification of the per-question points values: two quizzes with
equal passing_score whose question lists agree except possibly on points
yield the same score and the same passed flag for every submission. -/
theorem scoring_ignores_points (quiz1 quiz2 : Quiz) (answers : List SubmittedAnswer)
    (hps : quiz1.passing_score = quiz2.passing_score)
    (hqs : List.Forall₂ eqExceptPoints quiz1.quiz_questions quiz2.quiz_questions) :
    computeScore quiz1 answers = computeScore quiz2 answers
    ∧ computePassed quiz1 answers = computePassed quiz2 answers := by
  have hlen : quiz1.quiz_questions.length = quiz2.quiz_questions.length :=
    hqs.length_eq
  have hcount : correctAnswersCount quiz1 answers = correctAnswersCount quiz2 answers := by
    rw [correctAnswersCount_eq_countP, correctAnswersCount_eq_countP]
    exact countP_questionIsCorrect_congr answers _ _ hqs
  have htot : totalQuestions quiz1 = totalQuestions quiz2 := hlen
  have hs : computeScore quiz1 answers = computeScore quiz2 answers := by
    unfold computeScore
    rw [hcount, htot]
  have heff : effectivePassingScore quiz1 = effectivePassingScore quiz2 := by
    unfold effectivePassingScore
    rw [hps]
  refine ⟨hs, ?_⟩
  unfold computePassed
  rw [hs, heff]

/-- The fixture question with a different points value. -/
def wQuestionP : QuizQuestion := { wQuestion with points := 5 }

/-- The fixture quiz with modified points. -/
def wQuizP : Quiz := { wQuiz with quiz_questions := [wQuestionP] }

/-- Witness for C9 on the concrete fixture. -/
theorem scoring_ignores_points_witness :
    computeScore wQuiz wGoodSub = computeScore wQuizP wGoodSub
    ∧ computePassed wQuiz wGoodSub = computePassed wQuizP wGoodSub :=
  scoring_ignores_points wQuiz wQuizP wGoodSub (by decide)
    (List.Forall₂.cons ⟨rfl, rfl, rfl, rfl, rfl⟩ List.Forall₂.nil)

-- ==================== getFormationById error handling (C6) ====================

/-- C6 counterexample: a persistence failure during getFormationById is caught
by the service, which logs and returns null, so the request layer answers
HTTP 404 — not HTTP 500 as the claim states — and the two outcomes are not
distinguished. -/
theorem persistence_failure_surfaces_404_counterexample :
    getFormationByIdService (.error "connection failure") = none
    ∧ getFormationByIdController (.error "connection failure") = HttpStatus.notFound404
    ∧ HttpStatus.notFound404 ≠ HttpStatus.serverError500 := by
  refine ⟨rfl, rfl, by decide⟩

/-- C6 amended: a not-found fetch and a persistence failure both yield a null
service result, which the request layer maps to HTTP 404; only a successful
fetch yields 200, and no fetch outcome yields 500 — the service catches the
failure instead of rethrowing, so the two outcomes are not distinguished. -/
theorem getFormationById_error_handling :
    (∀ e : String, getFormationByIdService (.error e) = none
      ∧ getFormationByIdController (.error e) = HttpStatus.notFound404)
    ∧ (∀ f : Formation, getFormationByIdController (.ok f) = HttpStatus.ok200)
    ∧ (∀ r : Except String Formation,
        getFormationByIdController r ≠ HttpStatus.serverError500) := by
  refine ⟨fun e => ⟨rfl, rfl⟩, fun f => rfl, ?_⟩
  intro r
  cases r
  · simp [getFormationByIdController, getFormationByIdService]
  · simp [getFormationByIdController, getFormationByIdService]

-- ==================== createQuiz order_index defaults (C7) ====================

/-- An answer without an explicit order_index. -/
def cqAnswerYes : AnswerInput :=
  { answer_text := "yes", is_correct := true, order_index := none }

/-- An answer with the explicit order_index 0. -/
def cqAnswerNo : AnswerInput :=
  { answer_text := "no", is_correct := false, order_index := some 0 }

/-- First create-quiz question, no explicit order_index. -/
def cqQ1 : QuestionInput :=
  { question_text := "first", question_type := .multiple_choice, points := 1,
    order_index := none, answers := [cqAnswerYes, cqAnswerNo] }

/-- Second create-quiz question, no explicit order_index. -/
def cqQ2 : QuestionInput :=
  { question_text := "second", question_type := .multiple_choice, points := 1,
    order_index := none, answers := [cqAnswerYes] }

/-- C7 (code-bug evidence): creating a quiz with two questions, neither
carrying an explicit order_index, stores BOTH with order_index 0 instead of
0 and 1: the controller inserts each question through its own singleton
addQuizQuestions call, so the insertion-position default `order_index ||
index` always sees index 0. Moreover an answer submitted with the explicit
order_index 0 at list position 1 is stored with order_index 1, because 0 is
falsy in `||`. -/
theorem createQuiz_order_index_defaults_bug :
    (createQuizFlow "qz1" (fun _ => "qid1") [cqQ1, cqQ2]).map
        (fun p => p.1.order_index) = [0, 0]
    ∧ (addQuizAnswers "qid1" [cqAnswerYes, cqAnswerNo]).map
        (fun a => a.order_index) = [0, 1] := by
  refine ⟨by decide, by decide⟩

-- ==================== updateFormation frame (C8) ====================

/-- C8: updating a formation with a partial payload leaves every field absent
from the payload at its prior stored value (and id, organization_id,
created_by, created_at always), except updated_at, which is set to the update
instant and hence strictly advances under a monotone clock. -/
theorem updateFormation_frame (f : Formation) (u : FormationUpdate) (now : Nat)
    (hclock : f.updated_at < now) :
    (u.name = none → (applyFormationUpdate f u now).name = f.name)
    ∧ (u.type = none → (applyFormationUpdate f u now).type = f.type)
    ∧ (u.description = none →
        (applyFormationUpdate f u now).description = f.description)
    ∧ (u.duration_minutes = none →
        (applyFormationUpdate f u now).duration_minutes = f.duration_minutes)
    ∧ (u.status = none → (applyFormationUpdate f u now).status = f.status)
    ∧ (u.file_url = none → (applyFormationUpdate f u now).file_url = f.file_url)
    ∧ (u.file_name = none → (applyFormationUpdate f u now).file_name = f.file_name)
    ∧ (u.file_size = none → (applyFormationUpdate f u now).file_size = f.file_size)
    ∧ (applyFormationUpdate f u now).id = f.id
    ∧ (applyFormationUpdate f u now).organization_id = f.organization_id
    ∧ (applyFormationUpdate f u now).created_by = f.created_by
    ∧ (applyFormationUpdate f u now).created_at = f.created_at
    ∧ f.updated_at < (applyFormationUpdate f u now).updated_at := by
  refine ⟨?_, ?_, ?_, ?_, ?_, ?_, ?_, ?_, rfl, rfl, rfl, rfl, hclock⟩
  all_goals intro h
  all_goals simp [applyFormationUpdate, h]

/-- A concrete formation row. -/
def wFormation : Formation :=
  { id := "fm1", organization_id := "org1", name := "Sec", type := .video,
    description := some "d", duration_minutes := 30, status := .active,
    file_url := none, file_name := none, file_size := none,
    created_by := "u1", created_at := 100, updated_at := 100 }

/-- A partial payload setting only the name. -/
def wUpdate : FormationUpdate := { name := some "NewName" }

/-- Witness for C8 on the concrete fixture. -/
theorem updateFormation_frame_witness :
    wFormation.updated_at < (applyFormationUpdate wFormation wUpdate 200).updated_at
    ∧ (applyFormationUpdate wFormation wUpdate 200).created_at = wFormation.created_at
    ∧ (wUpdate.status = none →
        (applyFormationUpdate wFormation wUpdate 200).status = wFormation.status) := by
  obtain ⟨-, -, -, -, hst, -, -, -, -, -, -, hca, hup⟩ :=
    updateFormation_frame wFormation wUpdate 200 (by decide)
  exact ⟨hup, hca, hst⟩

-- ==================== submitQuiz on an unknown quiz (C10) ====================

/-- C10: when the quizId does not resolve to an existing quiz,
submitQuizResult throws `Quiz non trouvé` before any scoring or insertion, so
no user_quiz_results row is created — the state comes back unchanged — and
the request layer surfaces the thrown error as HTTP 500 (its only
non-validation error branch), not 404. -/
theorem submitQuiz_unknown_quiz (db : DB) (userId quizId : String)
    (answers : List SubmittedAnswer) (timeSpent : Option Nat)
    (h : getQuizById db quizId = none) :
    submitQuizResult db userId quizId answers timeSpent = .error "Quiz non trouvé"
    ∧ submitQuizController db userId quizId answers timeSpent
        = (HttpStatus.serverError500, db) := by
  have h1 : submitQuizResult db userId quizId answers timeSpent
      = .error "Quiz non trouvé" := by
    unfold submitQuizResult
    rw [h]
  refine ⟨h1, ?_⟩
  unfold submitQuizController
  rw [h1]

/-- Witness for C10 on the concrete fixture. -/
theorem submitQuiz_unknown_quiz_witness :
    submitQuizResult wDB "u1" "nope" [] none = .error "Quiz non trouvé"
    ∧ submitQuizController wDB "u1" "nope" [] none
        = (HttpStatus.serverError500, wDB) :=
  submitQuiz_unknown_quiz wDB "u1" "nope" [] none (by decide)

end Hydia
